import Mathlib

/-!
Verification of the `led_reading_plugin` repository (a Pioreactor plugin).

The development shallowly embeds the plugin's observable behaviour:

* `src/led_reading_plugin/led_reading.py` — the `LEDReader._burst_cycle`
  method (sampling loop, statistics, SQLite insert, MQTT publish) and
  `LEDReader.set_interval`;
* `src/led_reading_plugin/__init__.py` — the MQTT-to-DB sink registration
  (`TopicToParserToTable` with topic pattern
  `pioreactor/+/+/led_reading_plugin/led_reading` and the `_parser` function).

Python floats are modelled as exact rationals (`ℚ`), Python ints as `Int`.
Wall-clock time inside the sampling loop is modelled by an oracle
`clock : Nat → ℚ` giving the value of `time() - t0` at the n-th evaluation of
the `while` condition, and the ADC by `sensor : Nat → Option ℚ` where `none`
models `read_voltage()` raising an exception at the n-th read.
-/

namespace LedReading

/-- Channel value bound into the SQLite INSERT in `_burst_cycle`
(`led_reading.py` line 342):
`2 if self.led_channel == "B" else (1 if self.led_channel == "A" else 2)`. -/
def channelInt (led_channel : String) : Int :=
  if led_channel = "B" then 2 else if led_channel = "A" then 1 else 2

/-- Settle wait computed in `_burst_cycle` (`led_reading.py` line 293):
`settle_s = max(0.0, self.settle_ms / 1000.0)`, with `settle_ms : int`. -/
def settleSeconds (settle_ms : Int) : ℚ :=
  max 0 ((settle_ms : ℚ) / 1000)

/-- Configuration fields of `LEDReader` read by `_burst_cycle`. -/
structure CycleConfig where
  led_channel : String
  led_intensity : ℚ
  angle : Int
  settle_ms : Int
  burst_seconds : ℚ
  target_samples : Int

/-- Environment of one `_burst_cycle` invocation: whether entering the
scoped LED acquisition (`change_leds_intensities_temporarily`) succeeds,
whether the settle sleep succeeds, the loop's time and sensor oracles, and
whether the SQLite insert and the MQTT publish succeed. -/
structure CycleEnv where
  acquireOk : Bool
  settleOk : Bool
  clock : Nat → ℚ
  sensor : Nat → Option ℚ
  dbOk : Bool
  publishOk : Bool

/-- The sampling loop of `_burst_cycle` (`led_reading.py` lines 305-308):
`while (time() - t0) < self.burst_seconds and len(samples) < self.target_samples:`
reads a voltage, appends it and sleeps. The fuel argument `r` is the number
of further samples the count bound still admits (`target_samples - len(samples)`),
so the loop condition `len(samples) < target_samples` is exactly `r > 0`;
`n` is the index of the current condition check / read. A `none` from the
sensor models `read_voltage()` raising: the loop is abandoned and the flag
in the second component records that an exception escaped to the handler. -/
def sampleLoop (clock : Nat → ℚ) (sensor : Nat → Option ℚ) (burst_seconds : ℚ) :
    Nat → Nat → List ℚ × Bool
  | _, 0 => ([], false)
  | n, r + 1 =>
    if clock n < burst_seconds then
      match sensor n with
      | none => ([], true)
      | some v =>
        let rest := sampleLoop clock sensor burst_seconds (n + 1) r
        (v :: rest.1, rest.2)
    else ([], false)

/-- The `try:` block of `_burst_cycle` (`led_reading.py` lines 284-308):
acquire the LED, settle, then run the sampling loop. Returns the samples
accumulated in the local list `samples` together with a flag telling whether
an exception was raised (and hence caught by the `except` on line 309).
If acquisition or the settle sleep fails, no sample was collected yet. -/
def tryBlock (cfg : CycleConfig) (env : CycleEnv) : List ℚ × Bool :=
  if env.acquireOk = false then ([], true)
  else if env.settleOk = false then ([], true)
  else sampleLoop env.clock env.sensor cfg.burst_seconds 0 cfg.target_samples.toNat

/-- Statistics step of `_burst_cycle` (`led_reading.py` lines 313-319):
`avg_v = sum(samples)/len(samples); mn = min(samples); mx = max(samples)`
when `samples` is non-empty, else all three are `0.0`. Python's `min`/`max`
over a non-empty list are left folds of the binary `min`/`max`. -/
def burstStats (samples : List ℚ) : ℚ × ℚ × ℚ :=
  match samples with
  | [] => (0, 0, 0)
  | x :: xs =>
    ((x :: xs).sum / ((x :: xs).length : ℚ), xs.foldl min x, xs.foldl max x)

/-- Row bound into `INSERT INTO led_automation_readings` (`led_reading.py`
lines 332-343). -/
structure DbRow where
  experiment : String
  pioreactor_unit : String
  timestamp : String
  led_reading : ℚ
  angle : Int
  channel : Int
deriving DecidableEq

/-- Fields of the JSON object built by `json.dumps` in `_burst_cycle`
(`led_reading.py` lines 355-364). `channel` is `self.led_channel`, a string. -/
structure MqttPayload where
  timestamp : String
  avg_voltage : ℚ
  angle : Int
  channel : String
  intensity_percent : ℚ
  n_samples : Nat
deriving DecidableEq

/-- Key set of the published JSON object, in source order (`led_reading.py`
lines 355-364). -/
def publishPayloadKeys : List String :=
  [("timestamp"), ("avg_voltage"), ("angle"), ("channel"),
   ("intensity_percent"), ("n_samples")]

/-- Keys the registered `_parser` reads from the payload
(`__init__.py` lines 46-48): `data["led_reading"]`, `data["angle"]`,
`data["channel"]`. -/
def parserReadKeys : List String :=
  [("led_reading"), ("angle"), ("channel")]

/-- Topic levels of the publish call in `_burst_cycle` (`led_reading.py`
line 366): `f"pioreactor/{self.unit}/{self.experiment}/led_reading/{self.led_channel}"`. -/
def publishTopicLevels (unit experiment led_channel : String) : List String :=
  [("pioreactor"), unit, experiment, ("led_reading"), led_channel]

/-- Topic-filter levels of the sink registration in `__init__.py` line 55:
`"pioreactor/+/+/led_reading_plugin/led_reading"`. -/
def sinkSubscriptionLevels : List String :=
  [("pioreactor"), ("+"), ("+"), ("led_reading_plugin"), ("led_reading")]

/-- MQTT topic-filter matching on `/`-split levels: `+` matches exactly one
level, `#` (only as last level) matches all remaining levels, other levels
match literally. -/
def levelsMatch : List String → List String → Bool
  | [], [] => true
  | p :: ps, [] => (p = ("#") : Bool) && ps.isEmpty
  | [], _ :: _ => false
  | p :: ps, t :: ts =>
    if p = ("#") then ps.isEmpty
    else ((p = ("+") : Bool) || (p = t : Bool)) && levelsMatch ps ts

/-- Observable outcome of one `_burst_cycle` invocation. `dbAttempt` is the
row the INSERT is executed with (always built and executed, success recorded
in `dbInserted`); `publishAttempt` is the payload and topic handed to
`publish` (always built and attempted, success recorded in `published`). -/
structure CycleOutcome where
  samples : List ℚ
  samplingErrored : Bool
  settleWait : ℚ
  minV : ℚ
  maxV : ℚ
  last_burst_avg : ℚ
  dbAttempt : DbRow
  dbInserted : Bool
  publishAttempt : MqttPayload × List String
  published : Bool

/-- The whole of `_burst_cycle` (`led_reading.py` lines 275-372): run the
guarded sampling block, compute the statistics (with the all-zero fallback
for an empty sample list), set `self.last_burst_avg`, then attempt the
SQLite insert and the MQTT publish, each in its own `try/except`. `ts` is
the value of `current_utc_datetime()` serialised. -/
def burst_cycle (cfg : CycleConfig) (unit experiment ts : String)
    (env : CycleEnv) : CycleOutcome :=
  let res := tryBlock cfg env
  let stats := burstStats res.1
  { samples := res.1
    samplingErrored := res.2
    settleWait := settleSeconds cfg.settle_ms
    minV := stats.2.1
    maxV := stats.2.2
    last_burst_avg := stats.1
    dbAttempt :=
      { experiment := experiment
        pioreactor_unit := unit
        timestamp := ts
        led_reading := stats.1
        angle := cfg.angle
        channel := channelInt cfg.led_channel }
    dbInserted := env.dbOk
    publishAttempt :=
      ({ timestamp := ts
         avg_voltage := stats.1
         angle := cfg.angle
         channel := cfg.led_channel
         intensity_percent := cfg.led_intensity
         n_samples := res.1.length },
       publishTopicLevels unit experiment cfg.led_channel)
    published := env.publishOk }

/-- State mutated by `LEDReader.set_interval`: the job attribute
`self.interval` and the timer attribute `self.record_timer.interval`. -/
structure ReaderState where
  interval : ℚ
  timer_interval : ℚ
deriving DecidableEq

/-- `LEDReader.set_interval` (`led_reading.py` lines 375-380): raise
`ValueError` (modelled as `some` error message, state returned unchanged)
when `interval <= 0`, otherwise assign both attributes. -/
def set_interval (s : ReaderState) (interval : ℚ) : ReaderState × Option String :=
  if interval ≤ 0 then (s, some ("interval must be positive."))
  else ({ interval := interval, timer_interval := interval }, none)

end LedReading

namespace LedReading

/-- Claim C1 (the wire contract is violated; evaluation at the failing
behaviour): no topic the cycle publishes on — levels
`pioreactor/{unit}/{experiment}/led_reading/{led_channel}` — matches the
sink subscription filter `pioreactor/+/+/led_reading_plugin/led_reading`
registered by the plugin itself, and the published JSON has no
`led_reading` key although the registered parser reads one, so the parser
never receives, and could not parse, the cycle's message. -/
theorem C1_wire_contract_violated :
    (∀ (unit experiment led_channel : String),
      levelsMatch sinkSubscriptionLevels
        (publishTopicLevels unit experiment led_channel) = false) ∧
    ("led_reading") ∈ parserReadKeys ∧ ("led_reading") ∉ publishPayloadKeys := by
  refine ⟨?_, by decide, by decide⟩
  intro unit experiment led_channel
  rfl

/-- Claim C2 counterexample: for the unknown channel name "C" the code's
fallback inserts channel value 2, not 1 as the claim states. -/
theorem C2_counterexample :
    channelInt ("C") = 2 ∧ ¬ channelInt ("C") = 1 := by
  decide

/-- Claim C2 (amended): the inserted channel value is 2 for led_channel "B",
1 for "A", and 2 (not 1) for every other name via the fallback; in every
case it is one of {1, 2}. -/
theorem C2_channel_mapping :
    channelInt ("B") = 2 ∧ channelInt ("A") = 1 ∧
    (∀ c : String, c ≠ ("B") → c ≠ ("A") → channelInt c = 2) ∧
    (∀ c : String, channelInt c = 1 ∨ channelInt c = 2) := by
  refine ⟨by decide, by decide, ?_, ?_⟩
  · intro c hB hA
    simp [channelInt, hB, hA]
  · intro c
    by_cases hB : c = ("B")
    · simp [channelInt, hB]
    · by_cases hA : c = ("A") <;> simp [channelInt, hB, hA]

/-- Witness for C2_channel_mapping at the concrete unknown name "orange1". -/
theorem C2_witness : channelInt ("orange1") = 2 :=
  C2_channel_mapping.2.2.1 ("orange1") (by decide) (by decide)

/-- Claim C7: `set_interval` with a non-positive value raises ValueError and
leaves the state (both the stored interval and the timer interval)
unchanged; with a positive value it updates both to the new value. -/
theorem C7_set_interval :
    ∀ (s : ReaderState) (v : ℚ),
      (v ≤ 0 → set_interval s v = (s, some ("interval must be positive."))) ∧
      (0 < v → set_interval s v =
        ({ interval := v, timer_interval := v }, none)) := by
  intro s v
  constructor
  · intro h
    simp [set_interval, h]
  · intro h
    simp [set_interval, not_le.mpr h]

/-- Witness for C7_set_interval: rejection at -1 keeps the state ⟨1, 1⟩;
update at 5 sets both fields to 5. -/
theorem C7_witness :
    set_interval ⟨1, 1⟩ (-1) = (⟨1, 1⟩, some ("interval must be positive.")) ∧
    set_interval ⟨1, 1⟩ 5 = (⟨5, 5⟩, none) :=
  ⟨(C7_set_interval ⟨1, 1⟩ (-1)).1 (by decide),
   (C7_set_interval ⟨1, 1⟩ 5).2 (by decide)⟩

/-- Claim C10: the settle wait is `max(0, settle_ms/1000)` seconds — always
nonnegative, exactly `settle_ms/1000` for nonnegative `settle_ms`, and
silently clamped to a zero-length wait for negative `settle_ms`; this is
the value the cycle hands to the sleep primitive. -/
theorem C10_settle_clamp :
    ∀ settle_ms : Int,
      0 ≤ settleSeconds settle_ms ∧
      (settle_ms < 0 → settleSeconds settle_ms = 0) ∧
      (0 ≤ settle_ms → settleSeconds settle_ms = (settle_ms : ℚ) / 1000) ∧
      (∀ (cfg : CycleConfig) (unit experiment ts : String) (env : CycleEnv),
        (burst_cycle cfg unit experiment ts env).settleWait =
          settleSeconds cfg.settle_ms) := by
  intro ms
  refine ⟨le_max_left 0 _, ?_, ?_, fun _ _ _ _ _ => rfl⟩
  · intro h
    apply max_eq_left
    apply div_nonpos_of_nonpos_of_nonneg _ (by norm_num)
    exact_mod_cast h.le
  · intro h
    apply max_eq_right
    apply div_nonneg _ (by norm_num)
    exact_mod_cast h

/-- Witness for C10_settle_clamp at settle_ms = -250: the wait is 0. -/
theorem C10_witness : settleSeconds (-250) = 0 :=
  (C10_settle_clamp (-250)).2.1 (by decide)

end LedReading

namespace LedReading

/-- The sampling loop never collects more samples than its count-bound fuel
admits. -/
theorem sampleLoop_length_le (clock : Nat → ℚ) (sensor : Nat → Option ℚ)
    (b : ℚ) : ∀ (r n : Nat), (sampleLoop clock sensor b n r).1.length ≤ r := by
  intro r
  induction r with
  | zero => intro n; simp [sampleLoop]
  | succ r ih =>
    intro n
    by_cases hc : clock n < b
    · cases hs : sensor n with
      | none => simp [sampleLoop, if_pos hc, hs]
      | some v =>
        simp only [sampleLoop, if_pos hc, hs, List.length_cons]
        exact Nat.succ_le_succ (ih (n + 1))
    · simp [sampleLoop, if_neg hc]

/-- When the sampling loop terminates without an exception, it stopped
because one of the two bounds failed at the final condition check: either
the count bound was exhausted, or the time bound was exceeded at the check
following the last collected sample. -/
theorem sampleLoop_stop (clock : Nat → ℚ) (sensor : Nat → Option ℚ)
    (b : ℚ) : ∀ (r n : Nat), (sampleLoop clock sensor b n r).2 = false →
      (sampleLoop clock sensor b n r).1.length = r ∨
      ¬ clock (n + (sampleLoop clock sensor b n r).1.length) < b := by
  intro r
  induction r with
  | zero => intro n _; left; rfl
  | succ r ih =>
    intro n herr
    by_cases hc : clock n < b
    · cases hs : sensor n with
      | none => simp [sampleLoop, if_pos hc, hs] at herr
      | some v =>
        simp only [sampleLoop, if_pos hc, hs] at herr ⊢
        rcases ih (n + 1) herr with h | h
        · left
          simp [h]
        · right
          have hn : n + ((v :: (sampleLoop clock sensor b (n + 1) r).1).length) =
              (n + 1) + ((sampleLoop clock sensor b (n + 1) r).1).length := by
            simp [List.length_cons]
            omega
          rw [hn]
          exact h
    · right
      simp only [sampleLoop, if_neg hc, List.length_nil, Nat.add_zero]
      exact hc

/-- A left fold of `min` is bounded by its initial accumulator. -/
theorem foldl_min_le_init : ∀ (xs : List ℚ) (a : ℚ), xs.foldl min a ≤ a := by
  intro xs
  induction xs with
  | nil => intro a; exact le_refl a
  | cons x xs ih => intro a; exact le_trans (ih (min a x)) (min_le_left a x)

/-- A left fold of `min` is bounded by every list element. -/
theorem foldl_min_le_of_mem :
    ∀ (xs : List ℚ) (a y : ℚ), y ∈ xs → xs.foldl min a ≤ y := by
  intro xs
  induction xs with
  | nil => intro a y hy; cases hy
  | cons x xs ih =>
    intro a y hy
    rcases List.mem_cons.mp hy with rfl | hy
    · exact le_trans (foldl_min_le_init xs (min a y)) (min_le_right a y)
    · exact ih (min a x) y hy

/-- Python's `min(samples)` (the fold in `burstStats`) bounds every sample
from below. -/
theorem pyMin_le (x : ℚ) (xs : List ℚ) :
    ∀ y ∈ x :: xs, xs.foldl min x ≤ y := by
  intro y hy
  rcases List.mem_cons.mp hy with rfl | hy
  · exact foldl_min_le_init xs y
  · exact foldl_min_le_of_mem xs x y hy

/-- A left fold of `max` dominates its initial accumulator. -/
theorem le_foldl_max_init : ∀ (xs : List ℚ) (a : ℚ), a ≤ xs.foldl max a := by
  intro xs
  induction xs with
  | nil => intro a; exact le_refl a
  | cons x xs ih => intro a; exact le_trans (le_max_left a x) (ih (max a x))

/-- A left fold of `max` dominates every list element. -/
theorem le_foldl_max_of_mem :
    ∀ (xs : List ℚ) (a y : ℚ), y ∈ xs → y ≤ xs.foldl max a := by
  intro xs
  induction xs with
  | nil => intro a y hy; cases hy
  | cons x xs ih =>
    intro a y hy
    rcases List.mem_cons.mp hy with rfl | hy
    · exact le_trans (le_max_right a y) (le_foldl_max_init xs (max a y))
    · exact ih (max a x) y hy

/-- Python's `max(samples)` (the fold in `burstStats`) bounds every sample
from above. -/
theorem le_pyMax (x : ℚ) (xs : List ℚ) :
    ∀ y ∈ x :: xs, y ≤ xs.foldl max x := by
  intro y hy
  rcases List.mem_cons.mp hy with rfl | hy
  · exact le_foldl_max_init xs y
  · exact le_foldl_max_of_mem xs x y hy

/-- Claim C3: for a valid configuration (positive burst duration and target
sample count) and any sensor/clock behaviour, a completed burst collects
between 0 and `target_samples` samples; moreover, when the loop finishes
without an exception, it stopped exactly because the count bound was
reached or because the elapsed-time bound was reached at the check after
the last collected sample — whichever came first. -/
theorem C3_sample_count_bounds :
    ∀ (cfg : CycleConfig) (env : CycleEnv),
      0 < cfg.burst_seconds → 0 < cfg.target_samples →
      0 ≤ (tryBlock cfg env).1.length ∧
      (tryBlock cfg env).1.length ≤ cfg.target_samples.toNat ∧
      ((tryBlock cfg env).2 = false →
        (tryBlock cfg env).1.length = cfg.target_samples.toNat ∨
        cfg.burst_seconds ≤ env.clock ((tryBlock cfg env).1.length)) := by
  intro cfg env _ _
  unfold tryBlock
  by_cases ha : env.acquireOk = false
  · simp [ha]
  · by_cases hs : env.settleOk = false
    · simp [ha, hs]
    · rw [if_neg ha, if_neg hs]
      refine ⟨Nat.zero_le _, sampleLoop_length_le _ _ _ _ _, ?_⟩
      intro herr
      rcases sampleLoop_stop env.clock env.sensor cfg.burst_seconds
          cfg.target_samples.toNat 0 herr with h | h
      · exact Or.inl h
      · right
        rw [Nat.zero_add] at h
        exact not_lt.mp h

/-- Witness for C3_sample_count_bounds: a concrete 12-target, 3-second
configuration with an always-succeeding sensor and a clock frozen at 0. -/
theorem C3_witness :
    0 ≤ (tryBlock ⟨"B", 70, 180, 200, 3, 12⟩
        ⟨true, true, fun _ => 0, fun _ => some 5, true, true⟩).1.length ∧
    (tryBlock ⟨"B", 70, 180, 200, 3, 12⟩
        ⟨true, true, fun _ => 0, fun _ => some 5, true, true⟩).1.length ≤
      Int.toNat 12 ∧
    ((tryBlock ⟨"B", 70, 180, 200, 3, 12⟩
        ⟨true, true, fun _ => 0, fun _ => some 5, true, true⟩).2 = false →
      (tryBlock ⟨"B", 70, 180, 200, 3, 12⟩
          ⟨true, true, fun _ => 0, fun _ => some 5, true, true⟩).1.length =
        Int.toNat 12 ∨
      (3 : ℚ) ≤ (fun _ => (0 : ℚ))
        ((tryBlock ⟨"B", 70, 180, 200, 3, 12⟩
          ⟨true, true, fun _ => 0, fun _ => some 5, true, true⟩).1.length)) :=
  C3_sample_count_bounds ⟨"B", 70, 180, 200, 3, 12⟩
    ⟨true, true, fun _ => 0, fun _ => some 5, true, true⟩
    (by decide) (by decide)

/-- Claim C5: for every non-empty sample list, the computed average
`sum(samples)/len(samples)` lies in the closed interval
`[min(samples), max(samples)]`. -/
theorem C5_average_in_range :
    ∀ samples : List ℚ, samples ≠ [] →
      (burstStats samples).2.1 ≤ (burstStats samples).1 ∧
      (burstStats samples).1 ≤ (burstStats samples).2.2 := by
  intro l hl
  obtain ⟨x, xs, rfl⟩ := List.exists_cons_of_ne_nil hl
  simp only [burstStats]
  have hlen : (0 : ℚ) < ((x :: xs).length : ℚ) := by
    exact_mod_cast Nat.succ_pos xs.length
  constructor
  · rw [le_div_iff₀ hlen]
    calc xs.foldl min x * ((x :: xs).length : ℚ)
        = ((x :: xs).length : ℚ) * xs.foldl min x := by ring
      _ = (x :: xs).length • xs.foldl min x := (nsmul_eq_mul _ _).symm
      _ ≤ (x :: xs).sum := List.card_nsmul_le_sum _ _ (pyMin_le x xs)
  · rw [div_le_iff₀ hlen]
    calc (x :: xs).sum
        ≤ (x :: xs).length • xs.foldl max x :=
          List.sum_le_card_nsmul _ _ (le_pyMax x xs)
      _ = ((x :: xs).length : ℚ) * xs.foldl max x := nsmul_eq_mul _ _
      _ = xs.foldl max x * ((x :: xs).length : ℚ) := by ring

/-- Witness for C5_average_in_range on the concrete sample list [1, 2]. -/
theorem C5_witness :
    (burstStats [1, 2]).2.1 ≤ (burstStats [1, 2]).1 ∧
    (burstStats [1, 2]).1 ≤ (burstStats [1, 2]).2.2 :=
  C5_average_in_range [1, 2] (by decide)

end LedReading

namespace LedReading

/-- The inserted channel value is always one of {1, 2} (as the table's
CHECK constraint requires), whatever the configured channel name. -/
theorem channelInt_one_or_two (c : String) :
    channelInt c = 1 ∨ channelInt c = 2 := by
  unfold channelInt
  by_cases hB : c = ("B")
  · simp [hB]
  · by_cases hA : c = ("A") <;> simp [hB, hA]

/-- If the sensor raises at the (k+1)-st read while both loop bounds still
hold, the loop ends in the errored state holding exactly the k readings
collected before the failure. -/
theorem sampleLoop_fail_collects (clock : Nat → ℚ) (sensor : Nat → Option ℚ)
    (b : ℚ) (vs : Nat → ℚ) :
    ∀ (k n r : Nat), k < r →
      (∀ i, i ≤ k → clock (n + i) < b) →
      (∀ i, i < k → sensor (n + i) = some (vs (n + i))) →
      sensor (n + k) = none →
      sampleLoop clock sensor b n r =
        ((List.range k).map (fun i => vs (n + i)), true) := by
  intro k
  induction k with
  | zero =>
    intro n r hkr hclock _ hfail
    cases r with
    | zero => exact absurd hkr (Nat.not_lt_zero 0)
    | succ r =>
      have hc : clock n < b := by
        have := hclock 0 (Nat.le_refl 0)
        rwa [Nat.add_zero] at this
      have hf : sensor n = none := by rwa [Nat.add_zero] at hfail
      simp [sampleLoop, if_pos hc, hf]
  | succ k ih =>
    intro n r hkr hclock hsens hfail
    cases r with
    | zero => exact absurd hkr (Nat.not_lt_zero (k + 1))
    | succ r =>
      have hc : clock n < b := by
        have := hclock 0 (Nat.zero_le (k + 1))
        rwa [Nat.add_zero] at this
      have hs : sensor n = some (vs n) := by
        have := hsens 0 (Nat.succ_pos k)
        rwa [Nat.add_zero] at this
      have hrec := ih (n + 1) r (Nat.lt_of_succ_lt_succ hkr)
        (by
          intro i hi
          have h2 := hclock (i + 1) (Nat.succ_le_succ hi)
          have h3 : n + (i + 1) = (n + 1) + i := by omega
          rwa [h3] at h2)
        (by
          intro i hi
          have h2 := hsens (i + 1) (Nat.succ_lt_succ hi)
          have h3 : n + (i + 1) = (n + 1) + i := by omega
          rwa [h3] at h2)
        (by
          have h3 : n + (k + 1) = (n + 1) + k := by omega
          rwa [h3] at hfail)
      simp only [sampleLoop, if_pos hc, hs, hrec]
      rw [Prod.mk.injEq]
      refine ⟨?_, rfl⟩
      rw [List.range_succ_eq_map, List.map_cons, List.map_map]
      rw [Nat.add_zero]
      congr 1
      apply List.map_congr_left
      intro i _
      simp only [Function.comp_apply]
      congr 1
      omega

/-- Claim C6: an exception raised anywhere inside the cycle's guarded block
— LED acquisition, settling, or a sensor read — is caught locally: the
cycle still reaches the statistics, the insert and the publish, computed
from exactly the samples collected before the failure; in particular, when
the sensor raises at the (k+1)-st read, the cycle's sample list is exactly
the k readings taken before it (possibly zero). -/
theorem C6_exception_absorbed :
    (∀ (cfg : CycleConfig) (unit experiment ts : String) (env : CycleEnv),
      (tryBlock cfg env).2 = true →
      (burst_cycle cfg unit experiment ts env).samplingErrored = true ∧
      (burst_cycle cfg unit experiment ts env).samples = (tryBlock cfg env).1 ∧
      (burst_cycle cfg unit experiment ts env).last_burst_avg =
        (burstStats (tryBlock cfg env).1).1 ∧
      (burst_cycle cfg unit experiment ts env).dbAttempt.led_reading =
        (burstStats (tryBlock cfg env).1).1 ∧
      (burst_cycle cfg unit experiment ts env).publishAttempt.1.n_samples =
        (tryBlock cfg env).1.length ∧
      (burst_cycle cfg unit experiment ts env).dbInserted = env.dbOk ∧
      (burst_cycle cfg unit experiment ts env).published = env.publishOk) ∧
    (∀ (cfg : CycleConfig) (env : CycleEnv) (vs : Nat → ℚ) (k : Nat),
      env.acquireOk = true → env.settleOk = true →
      k < cfg.target_samples.toNat →
      (∀ i, i ≤ k → env.clock i < cfg.burst_seconds) →
      (∀ i, i < k → env.sensor i = some (vs i)) →
      env.sensor k = none →
      tryBlock cfg env = ((List.range k).map vs, true)) := by
  constructor
  · intro cfg unit experiment ts env herr
    exact ⟨herr, rfl, rfl, rfl, rfl, rfl, rfl⟩
  · intro cfg env vs k ha hs hk hclock hsens hfail
    unfold tryBlock
    rw [if_neg (by simp [ha]), if_neg (by simp [hs])]
    have := sampleLoop_fail_collects env.clock env.sensor cfg.burst_seconds vs
      k 0 cfg.target_samples.toNat hk
      (by intro i hi; rw [Nat.zero_add]; exact hclock i hi)
      (by intro i hi; rw [Nat.zero_add]; exact hsens i hi)
      (by rw [Nat.zero_add]; exact hfail)
    rw [this]
    rw [Prod.mk.injEq]
    refine ⟨List.map_congr_left ?_, rfl⟩
    intro i _
    rw [Nat.zero_add]

/-- Witness for C6_exception_absorbed: a sensor that succeeds twice with
value 5 and then raises, inside a 3-second, 12-target cycle with the clock
frozen at 0: the cycle is marked errored, continues to both sinks, and its
sample list is exactly the two readings taken before the failure. -/
theorem C6_witness :
    ((burst_cycle ⟨"B", 70, 180, 200, 3, 12⟩ ("u1") ("e1") ("t1")
        ⟨true, true, fun _ => 0, fun n => if n < 2 then some 5 else none,
          true, true⟩).samplingErrored = true ∧
      (burst_cycle ⟨"B", 70, 180, 200, 3, 12⟩ ("u1") ("e1") ("t1")
        ⟨true, true, fun _ => 0, fun n => if n < 2 then some 5 else none,
          true, true⟩).samples =
        (tryBlock ⟨"B", 70, 180, 200, 3, 12⟩
          ⟨true, true, fun _ => 0, fun n => if n < 2 then some 5 else none,
            true, true⟩).1 ∧
      (burst_cycle ⟨"B", 70, 180, 200, 3, 12⟩ ("u1") ("e1") ("t1")
        ⟨true, true, fun _ => 0, fun n => if n < 2 then some 5 else none,
          true, true⟩).last_burst_avg =
        (burstStats (tryBlock ⟨"B", 70, 180, 200, 3, 12⟩
          ⟨true, true, fun _ => 0, fun n => if n < 2 then some 5 else none,
            true, true⟩).1).1 ∧
      (burst_cycle ⟨"B", 70, 180, 200, 3, 12⟩ ("u1") ("e1") ("t1")
        ⟨true, true, fun _ => 0, fun n => if n < 2 then some 5 else none,
          true, true⟩).dbAttempt.led_reading =
        (burstStats (tryBlock ⟨"B", 70, 180, 200, 3, 12⟩
          ⟨true, true, fun _ => 0, fun n => if n < 2 then some 5 else none,
            true, true⟩).1).1 ∧
      (burst_cycle ⟨"B", 70, 180, 200, 3, 12⟩ ("u1") ("e1") ("t1")
        ⟨true, true, fun _ => 0, fun n => if n < 2 then some 5 else none,
          true, true⟩).publishAttempt.1.n_samples =
        (tryBlock ⟨"B", 70, 180, 200, 3, 12⟩
          ⟨true, true, fun _ => 0, fun n => if n < 2 then some 5 else none,
            true, true⟩).1.length ∧
      (burst_cycle ⟨"B", 70, 180, 200, 3, 12⟩ ("u1") ("e1") ("t1")
        ⟨true, true, fun _ => 0, fun n => if n < 2 then some 5 else none,
          true, true⟩).dbInserted = true ∧
      (burst_cycle ⟨"B", 70, 180, 200, 3, 12⟩ ("u1") ("e1") ("t1")
        ⟨true, true, fun _ => 0, fun n => if n < 2 then some 5 else none,
          true, true⟩).published = true) ∧
    tryBlock ⟨"B", 70, 180, 200, 3, 12⟩
        ⟨true, true, fun _ => 0, fun n => if n < 2 then some 5 else none,
          true, true⟩ =
      ((List.range 2).map (fun _ => (5 : ℚ)), true) :=
  ⟨C6_exception_absorbed.1 ⟨"B", 70, 180, 200, 3, 12⟩ ("u1") ("e1") ("t1")
      ⟨true, true, fun _ => 0, fun n => if n < 2 then some 5 else none,
        true, true⟩ (by decide),
    C6_exception_absorbed.2 ⟨"B", 70, 180, 200, 3, 12⟩
      ⟨true, true, fun _ => 0, fun n => if n < 2 then some 5 else none,
        true, true⟩ (fun _ => 5) 2 rfl rfl (by decide)
      (fun i _ => by change (0 : ℚ) < 3; decide)
      (fun i hi => by
        change (if i < 2 then some (5 : ℚ) else none) = some 5
        rw [if_pos hi])
      (by decide)⟩

/-- Claim C4: when the collected sample list is empty, average, min and max
are all exactly 0 (a defined fallback), and the cycle still builds and
attempts both the database row (with a channel value in {1, 2}) and the
publish payload, each well-formed with a zero reading and zero sample
count. -/
theorem C4_empty_fallback :
    ∀ (cfg : CycleConfig) (unit experiment ts : String) (env : CycleEnv),
      (tryBlock cfg env).1 = [] →
      (burst_cycle cfg unit experiment ts env).last_burst_avg = 0 ∧
      (burst_cycle cfg unit experiment ts env).minV = 0 ∧
      (burst_cycle cfg unit experiment ts env).maxV = 0 ∧
      (burst_cycle cfg unit experiment ts env).dbAttempt =
        { experiment := experiment, pioreactor_unit := unit, timestamp := ts,
          led_reading := 0, angle := cfg.angle,
          channel := channelInt cfg.led_channel } ∧
      ((burst_cycle cfg unit experiment ts env).dbAttempt.channel = 1 ∨
        (burst_cycle cfg unit experiment ts env).dbAttempt.channel = 2) ∧
      (burst_cycle cfg unit experiment ts env).publishAttempt =
        ({ timestamp := ts, avg_voltage := 0, angle := cfg.angle,
           channel := cfg.led_channel, intensity_percent := cfg.led_intensity,
           n_samples := 0 },
         publishTopicLevels unit experiment cfg.led_channel) := by
  intro cfg u e ts env h
  refine ⟨by simp [burst_cycle, h, burstStats],
    by simp [burst_cycle, h, burstStats],
    by simp [burst_cycle, h, burstStats],
    by simp [burst_cycle, h, burstStats],
    ?_,
    by simp [burst_cycle, h, burstStats]⟩
  have hc := channelInt_one_or_two cfg.led_channel
  simpa [burst_cycle] using hc

/-- Witness for C4_empty_fallback: acquisition fails immediately, so no
sample is collected, yet the cycle reaches both sinks with the all-zero
fallback record. -/
theorem C4_witness :
    (burst_cycle ⟨"B", 70, 180, 200, 3, 12⟩ ("u1") ("e1") ("t1")
        ⟨false, true, fun _ => 0, fun _ => none, true, true⟩).last_burst_avg
        = 0 ∧
    (burst_cycle ⟨"B", 70, 180, 200, 3, 12⟩ ("u1") ("e1") ("t1")
        ⟨false, true, fun _ => 0, fun _ => none, true, true⟩).minV = 0 ∧
    (burst_cycle ⟨"B", 70, 180, 200, 3, 12⟩ ("u1") ("e1") ("t1")
        ⟨false, true, fun _ => 0, fun _ => none, true, true⟩).maxV = 0 ∧
    (burst_cycle ⟨"B", 70, 180, 200, 3, 12⟩ ("u1") ("e1") ("t1")
        ⟨false, true, fun _ => 0, fun _ => none, true, true⟩).dbAttempt =
      { experiment := ("e1"), pioreactor_unit := ("u1"),
        timestamp := ("t1"), led_reading := 0, angle := 180,
        channel := channelInt ("B") } ∧
    ((burst_cycle ⟨"B", 70, 180, 200, 3, 12⟩ ("u1") ("e1") ("t1")
        ⟨false, true, fun _ => 0, fun _ => none, true, true⟩).dbAttempt.channel
        = 1 ∨
      (burst_cycle ⟨"B", 70, 180, 200, 3, 12⟩ ("u1") ("e1") ("t1")
        ⟨false, true, fun _ => 0, fun _ => none, true, true⟩).dbAttempt.channel
        = 2) ∧
    (burst_cycle ⟨"B", 70, 180, 200, 3, 12⟩ ("u1") ("e1") ("t1")
        ⟨false, true, fun _ => 0, fun _ => none, true, true⟩).publishAttempt =
      ({ timestamp := ("t1"), avg_voltage := 0, angle := 180,
         channel := ("B"), intensity_percent := 70, n_samples := 0 },
       publishTopicLevels ("u1") ("e1") ("B")) :=
  C4_empty_fallback ⟨"B", 70, 180, 200, 3, 12⟩ ("u1") ("e1") ("t1")
    ⟨false, true, fun _ => 0, fun _ => none, true, true⟩ rfl

/-- Claim C8: persistence and publish are independent per cycle: whatever
the two sinks' success flags, the cycle always attempts both with the same
row and payload, the insert outcome depends only on the insert flag, the
publish outcome only on the publish flag, and the cycle's computed state
(samples and average) is unaffected — neither failure aborts the cycle. -/
theorem C8_sink_independence :
    ∀ (cfg : CycleConfig) (unit experiment ts : String) (env : CycleEnv)
      (b1 b2 : Bool),
      (burst_cycle cfg unit experiment ts
          { env with dbOk := b1, publishOk := b2 }).dbAttempt =
        (burst_cycle cfg unit experiment ts env).dbAttempt ∧
      (burst_cycle cfg unit experiment ts
          { env with dbOk := b1, publishOk := b2 }).publishAttempt =
        (burst_cycle cfg unit experiment ts env).publishAttempt ∧
      (burst_cycle cfg unit experiment ts
          { env with dbOk := b1, publishOk := b2 }).dbInserted = b1 ∧
      (burst_cycle cfg unit experiment ts
          { env with dbOk := b1, publishOk := b2 }).published = b2 ∧
      (burst_cycle cfg unit experiment ts
          { env with dbOk := b1, publishOk := b2 }).samples =
        (burst_cycle cfg unit experiment ts env).samples ∧
      (burst_cycle cfg unit experiment ts
          { env with dbOk := b1, publishOk := b2 }).last_burst_avg =
        (burst_cycle cfg unit experiment ts env).last_burst_avg := by
  intro cfg unit experiment ts env b1 b2
  exact ⟨rfl, rfl, rfl, rfl, rfl, rfl⟩

/-- Claim C9: the externally observable `last_burst_avg` attribute always
equals the cycle's computed average (the first component of `burstStats`
over the collected samples), independently of whether the database insert
or the publish succeed. -/
theorem C9_last_burst_avg :
    ∀ (cfg : CycleConfig) (unit experiment ts : String) (env : CycleEnv)
      (b1 b2 : Bool),
      (burst_cycle cfg unit experiment ts
          { env with dbOk := b1, publishOk := b2 }).last_burst_avg =
        (burstStats (tryBlock cfg env).1).1 ∧
      (burst_cycle cfg unit experiment ts
          { env with dbOk := b1, publishOk := b2 }).dbAttempt.led_reading =
        (burstStats (tryBlock cfg env).1).1 := by
  intro cfg unit experiment ts env b1 b2
  exact ⟨rfl, rfl⟩

end LedReading
